import Mathlib

/-!
Shallow embedding of the two Python source files of the `carp` repository:
`cli/my-test-agent/agent.py` (a single-turn request/response agent template)
and `scripts/test_upload_batch.py` (a manual external-process test harness).

Machine-level details that the claims do not touch (floating-point value
semantics, Python string `repr` escaping) are carried as raw text where they
occur; everything on the claim paths is modelled from the source.
-/

/-- A JSON value as produced by the Python `json.loads` call.  Python turns JSON
numbers without a fraction or exponent into `int` and the rest into `float`;
the `float` constructor keeps the source text, since no further arithmetic is
ever performed on it. -/
inductive JValue where
  | null
  | bool (b : Bool)
  | int (n : Int)
  | float (raw : String)
  | str (s : String)
  | arr (items : List JValue)
  | obj (fields : List (String × JValue))

/-- The Python type name of a `json.loads` result, as it appears in
`AttributeError` messages. -/
def JValue.pyTypeName : JValue → String
  | .null => "NoneType"
  | .bool _ => "bool"
  | .int _ => "int"
  | .float _ => "float"
  | .str _ => "str"
  | .arr _ => "list"
  | .obj _ => "dict"

/-- Is this JSON value a Python `dict` (the only values with a `get` method)? -/
def JValue.isObj : JValue → Bool
  | .obj _ => true
  | _ => false

/-- A single-quote character, used to build Python error messages and `repr`
output. -/
def squote : String := String.singleton (Char.ofNat 39)

/-- The message of the `AttributeError` raised by `x.get(...)` when `x` is not
a `dict`; the type name and `get` appear wrapped in single quotes. -/
def attrErrMsg (tyName : String) : String :=
  squote ++ tyName ++ squote ++ " object has no attribute " ++ squote ++ "get" ++ squote

/-- `dict.get` lookup on the field list of a parsed JSON object.  Python keeps
the LAST binding of a duplicated key, so later fields shadow earlier ones. -/
def objGet : List (String × JValue) → String → Option JValue
  | [], _ => none
  | (k, v) :: rest, key =>
    match objGet rest key with
    | some w => some w
    | none => if k = key then some v else none

mutual

/-- Python `str(x)` for a `json.loads` result, as used by f-string
interpolation in `Agent.process`.  Escaping inside `repr` of nested strings is
not modelled (no claim reaches it); floats keep their source text. -/
def JValue.pyStr : JValue → String
  | .null => "None"
  | .bool true => "True"
  | .bool false => "False"
  | .int n => toString n
  | .float raw => raw
  | .str s => s
  | .arr items => "[" ++ String.intercalate ", " (pyReprList items) ++ "]"
  | .obj fields => "\x7b" ++ String.intercalate ", " (pyReprFields fields) ++ "\x7d"

/-- Python `repr(x)` for a `json.loads` result (strings gain quotes). -/
def JValue.pyRepr : JValue → String
  | .str s => squote ++ s ++ squote
  | v => JValue.pyStr v

/-- `repr` of each element of a Python list. -/
def JValue.pyReprList : List JValue → List String
  | [] => []
  | v :: rest => JValue.pyRepr v :: pyReprList rest

/-- `repr(k): repr(v)` for each entry of a Python dict. -/
def JValue.pyReprFields : List (String × JValue) → List String
  | [] => []
  | (k, v) :: rest => (squote ++ k ++ squote ++ ": " ++ JValue.pyRepr v) :: pyReprFields rest

end

/-- The configuration mapping.  `agent.py` types it `Dict[str, Any]`; only the
string-valued keys `name` and `version` are ever read, and the only value the
program ever constructs is the empty dict. -/
def Config := List (String × String)

/-- `config.get(key, default)` on the configuration dict. -/
def Config.getD (config : Config) (key default : String) : String :=
  match List.lookup key config with
  | some v => v
  | none => default

/-- The agent identity: the `name`/`version` pair placed in the `agent`
field of every response envelope. -/
structure AgentIdentity where
  name : String
  version : String
  deriving DecidableEq

/-- The `Agent` object: a configuration dict plus the two fields derived from
it in `__init__`. -/
structure Agent where
  config : Config
  name : String
  version : String

/-- `Agent.__init__`: store the configuration (an absent argument becomes the
empty dict at the call site) and derive `name` and `version` with their
defaults. -/
def Agent.init (config : Config) : Agent :=
  { config := config
  , name := config.getD "name" "Basic Agent"
  , version := config.getD "version" "0.1.0" }

/-- `Agent.process`: the placeholder logic, an f-string interpolating the
agent name and the verbatim input. -/
def Agent.process (a : Agent) (input_data : String) : String :=
  "Hello from " ++ a.name ++ "! You said: " ++ input_data

/-- The identity an agent reports in envelopes. -/
def Agent.identity (a : Agent) : AgentIdentity :=
  { name := a.name, version := a.version }

/-- The response envelope dict returned by `handle_request`: either the
success shape `{success: true, result, agent}` or the failure shape
`{success: false, error, agent}`. -/
inductive Envelope where
  | Success (result : String) (agent : AgentIdentity)
  | Failure (error : String) (agent : AgentIdentity)
  deriving DecidableEq

/-- The `agent` field of an envelope. -/
def Envelope.agent : Envelope → AgentIdentity
  | .Success _ a => a
  | .Failure _ a => a

/-- Is this the success variant (`success: true`)? -/
def Envelope.isSuccess : Envelope → Bool
  | .Success _ _ => true
  | .Failure _ _ => false

/-- `request.get` with key `input` and empty-string default: on a dict, the field lookup with the empty
string as default; on any other value, the `AttributeError` that Python raises
because the value has no `get` method. -/
def getInput : JValue → Except String JValue
  | .obj fields => .ok ((objGet fields "input").getD (.str ""))
  | v => .error (attrErrMsg v.pyTypeName)

/-- `Agent.handle_request`: extract `input` (defaulting to the empty string),
run `process` on it, and wrap the result in a success envelope; any exception
in the try block is caught and converted to a failure envelope carrying
`str(e)`.  The only fallible step is the `request.get` attribute access. -/
def Agent.handle_request (a : Agent) (request : JValue) : Envelope :=
  match getInput request with
  | .ok input_data => .Success (a.process input_data.pyStr) a.identity
  | .error e => .Failure e a.identity

/-- JSON whitespace accepted by the Python parser between tokens. -/
def isJsonWs (c : Char) : Bool :=
  c = ' ' || c = '\x09' || c = '\x0a' || c = '\x0d'

/-- Drop leading JSON whitespace. -/
def skipWs : List Char → List Char
  | [] => []
  | c :: rest => if isJsonWs c then skipWs rest else c :: rest

/-- Consume an exact literal, returning the remainder on a match. -/
def stripLit : List Char → List Char → Option (List Char)
  | [], cs => some cs
  | _ :: _, [] => none
  | l :: ls, c :: cs => if c = l then stripLit ls cs else none

/-- One hexadecimal digit of a `\uXXXX` escape. -/
def hexVal (c : Char) : Option Nat :=
  if '0' ≤ c && c ≤ '9' then some (c.toNat - 48)
  else if 'a' ≤ c && c ≤ 'f' then some (c.toNat - 87)
  else if 'A' ≤ c && c ≤ 'F' then some (c.toNat - 55)
  else none

/-- Four hexadecimal digits of a `\uXXXX` escape. -/
def parseHex4 : List Char → Option (Nat × List Char)
  | a :: b :: c :: d :: rest => do
    let va ← hexVal a
    let vb ← hexVal b
    let vc ← hexVal c
    let vd ← hexVal d
    some (((va * 16 + vb) * 16 + vc) * 16 + vd, rest)
  | _ => none

/-- Body of a JSON string after the opening quote: the strict mode of the Python decoder, which
rejects raw control characters below `U+0020` and recognises the eight
escapes plus `\uXXXX`. -/
def parseStringBody : Nat → List Char → Option (String × List Char)
  | 0, _ => none
  | _, [] => none
  | fuel + 1, c :: rest =>
    if c = '\x22' then some ("", rest)
    else if c = '\\' then
      match rest with
      | [] => none
      | e :: rest2 =>
        let esc : Option (Char × List Char) :=
          if e = '\x22' then some ('\x22', rest2)
          else if e = '\\' then some ('\\', rest2)
          else if e = '/' then some ('/', rest2)
          else if e = 'b' then some ('\x08', rest2)
          else if e = 'f' then some ('\x0c', rest2)
          else if e = 'n' then some ('\x0a', rest2)
          else if e = 'r' then some ('\x0d', rest2)
          else if e = 't' then some ('\x09', rest2)
          else if e = 'u' then
            match parseHex4 rest2 with
            | some (n, rest3) => some (Char.ofNat n, rest3)
            | none => none
          else none
        match esc with
        | some (decoded, rest3) =>
          match parseStringBody fuel rest3 with
          | some (s, rest4) => some (String.singleton decoded ++ s, rest4)
          | none => none
        | none => none
    else if c.toNat < 32 then none
    else
      match parseStringBody fuel rest with
      | some (s, rest2) => some (String.singleton c ++ s, rest2)
      | none => none

/-- Greedily take decimal digits. -/
def takeDigits : List Char → List Char × List Char
  | [] => ([], [])
  | c :: rest =>
    if c.isDigit then
      let (ds, rest2) := takeDigits rest
      (c :: ds, rest2)
    else ([], c :: rest)

/-- The integer part of a JSON number: `0`, or a nonzero digit followed by
digits (leading zeros are rejected, as in Python). -/
def parseIntPart : List Char → Option (List Char × List Char)
  | [] => none
  | c :: rest =>
    if c = '0' then some ([c], rest)
    else if c.isDigit then
      let (ds, rest2) := takeDigits rest
      some (c :: ds, rest2)
    else none

/-- The optional fraction `.digits`; returns its characters (possibly none). -/
def parseFracPart : List Char → Option (List Char × List Char)
  | '.' :: rest =>
    match takeDigits rest with
    | ([], _) => none
    | (ds, rest2) => some ('.' :: ds, rest2)
  | cs => some ([], cs)

/-- The optional exponent `e[+-]digits`; returns its characters. -/
def parseExpPart : List Char → Option (List Char × List Char)
  | c :: rest =>
    if c = 'e' || c = 'E' then
      let (sign, rest2) : List Char × List Char :=
        match rest with
        | s :: r => if s = '+' || s = '-' then ([s], r) else ([], s :: r)
        | [] => ([], [])
      match takeDigits rest2 with
      | ([], _) => none
      | (ds, rest3) => some (c :: sign ++ ds, rest3)
    else some ([], c :: rest)
  | [] => some ([], [])

/-- Decimal value of a digit string. -/
def digitsToNat : List Char → Nat
  | [] => 0
  | ds => ds.foldl (fun acc c => acc * 10 + (c.toNat - 48)) 0

/-- A JSON number, following the Python JSON grammar: an optional minus sign,
integer part, optional fraction, optional exponent.  A number with a fraction
or exponent becomes a Python `float` (kept as text); otherwise an `int`. -/
def parseNumber (cs : List Char) : Option (JValue × List Char) :=
  let (neg, cs1) : Bool × List Char :=
    match cs with
    | '-' :: rest => (true, rest)
    | _ => (false, cs)
  match parseIntPart cs1 with
  | none => none
  | some (ip, cs2) =>
    match parseFracPart cs2 with
    | none => none
    | some (fp, cs3) =>
      match parseExpPart cs3 with
      | none => none
      | some (ep, cs4) =>
        if fp = [] && ep = [] then
          let n : Int := Int.ofNat (digitsToNat ip)
          some (.int (if neg then -n else n), cs4)
        else
          let sign : List Char := if neg then ['-'] else []
          some (.float (String.mk (sign ++ ip ++ fp ++ ep)), cs4)

mutual

/-- One JSON value, as in the Python decoder: leading whitespace, then a
literal (`null`, `true`, `false`, and the non-standard `NaN`,
`Infinity`, `-Infinity`), a string, an array, an object, or a number. -/
def parseValue : Nat → List Char → Option (JValue × List Char)
  | 0, _ => none
  | fuel + 1, cs =>
    let cs := skipWs cs
    match stripLit "null".toList cs with
    | some rest => some (.null, rest)
    | none =>
    match stripLit "true".toList cs with
    | some rest => some (.bool true, rest)
    | none =>
    match stripLit "false".toList cs with
    | some rest => some (.bool false, rest)
    | none =>
    match stripLit "NaN".toList cs with
    | some rest => some (.float "nan", rest)
    | none =>
    match stripLit "Infinity".toList cs with
    | some rest => some (.float "inf", rest)
    | none =>
    match stripLit "-Infinity".toList cs with
    | some rest => some (.float "-inf", rest)
    | none =>
    match cs with
    | [] => none
    | c :: rest =>
      if c = '\x22' then
        match parseStringBody (rest.length + 1) rest with
        | some (s, rest2) => some (.str s, rest2)
        | none => none
      else if c = '[' then
        match skipWs rest with
        | ']' :: rest2 => some (.arr [], rest2)
        | rest2 =>
          match parseItems fuel rest2 with
          | some (items, rest3) => some (.arr items, rest3)
          | none => none
      else if c = '\x7b' then
        match skipWs rest with
        | '\x7d' :: rest2 => some (.obj [], rest2)
        | rest2 =>
          match parseMembers fuel rest2 with
          | some (fields, rest3) => some (.obj fields, rest3)
          | none => none
      else parseNumber (c :: rest)

/-- A non-empty comma-separated list of array elements, up to and including
the closing bracket. -/
def parseItems : Nat → List Char → Option (List JValue × List Char)
  | 0, _ => none
  | fuel + 1, cs =>
    match parseValue fuel cs with
    | none => none
    | some (v, rest) =>
      match skipWs rest with
      | ',' :: rest2 =>
        match parseItems fuel rest2 with
        | some (items, rest3) => some (v :: items, rest3)
        | none => none
      | ']' :: rest2 => some ([v], rest2)
      | _ => none

/-- A non-empty comma-separated list of `"key": value` members, up to and
including the closing brace. -/
def parseMembers : Nat → List Char → Option (List (String × JValue) × List Char)
  | 0, _ => none
  | fuel + 1, cs =>
    match skipWs cs with
    | '\x22' :: rest =>
      match parseStringBody (rest.length + 1) rest with
      | none => none
      | some (k, rest2) =>
        match skipWs rest2 with
        | ':' :: rest3 =>
          match parseValue fuel rest3 with
          | none => none
          | some (v, rest4) =>
            match skipWs rest4 with
            | ',' :: rest5 =>
              match parseMembers fuel rest5 with
              | some (fields, rest6) => some ((k, v) :: fields, rest6)
              | none => none
            | '\x7d' :: rest5 => some ([(k, v)], rest5)
            | _ => none
        | _ => none
    | _ => none

end

/-- `json.loads` on one line of input: parse a single value and require that
only whitespace remains; any leftover raises `JSONDecodeError`, modelled as
`none`. -/
def loads (line : String) : Option JValue :=
  let cs := line.toList
  match parseValue (2 * cs.length + 8) cs with
  | some (v, rest) => if skipWs rest = [] then some v else none
  | none => none

/-- One hexadecimal digit, lowercase, as in the `\uXXXX` output of the Python encoder. -/
def hexDigit (n : Nat) : Char :=
  if n < 10 then Char.ofNat (48 + n) else Char.ofNat (87 + n)

/-- Four lowercase hexadecimal digits. -/
def hex4 (n : Nat) : String :=
  String.mk [hexDigit (n / 4096 % 16), hexDigit (n / 256 % 16),
             hexDigit (n / 16 % 16), hexDigit (n % 16)]

/-- How `json.dumps` (with its default `ensure_ascii=True`) renders one
character: the two-character escapes for quote, backslash and the common
control characters, `\uXXXX` for everything outside printable ASCII
(surrogate pairs above the basic plane), and the character itself otherwise. -/
def jsonEscapeChar (c : Char) : String :=
  if c = '\x22' then "\\\x22"
  else if c = '\\' then "\\\\"
  else if c = '\x08' then "\\b"
  else if c = '\x09' then "\\t"
  else if c = '\x0a' then "\\n"
  else if c = '\x0c' then "\\f"
  else if c = '\x0d' then "\\r"
  else if c.toNat < 32 || c.toNat > 126 then
    if c.toNat ≤ 65535 then "\\u" ++ hex4 c.toNat
    else
      let m := c.toNat - 65536
      "\\u" ++ hex4 (55296 + m / 1024) ++ "\\u" ++ hex4 (56320 + m % 1024)
  else String.singleton c

/-- A JSON string literal as `json.dumps` prints it. -/
def jsonQuote (s : String) : String :=
  "\x22" ++ String.join (s.toList.map jsonEscapeChar) ++ "\x22"

/-- `json.dumps` of the `agent` sub-dict, with the default separators
and the insertion order of `handle_request`. -/
def dumpsIdentity (a : AgentIdentity) : String :=
  "\x7b" ++ jsonQuote "name" ++ ": " ++ jsonQuote a.name ++ ", "
  ++ jsonQuote "version" ++ ": " ++ jsonQuote a.version ++ "\x7d"

/-- `json.dumps(response)` for the dict `handle_request` returns: keys in
insertion order (`success`, then `result` or `error`, then `agent`). -/
def dumpsEnvelope : Envelope → String
  | .Success r a =>
    "\x7b" ++ jsonQuote "success" ++ ": true, " ++ jsonQuote "result" ++ ": "
    ++ jsonQuote r ++ ", " ++ jsonQuote "agent" ++ ": " ++ dumpsIdentity a ++ "\x7d"
  | .Failure e a =>
    "\x7b" ++ jsonQuote "success" ++ ": false, " ++ jsonQuote "error" ++ ": "
    ++ jsonQuote e ++ ", " ++ jsonQuote "agent" ++ ": " ++ dumpsIdentity a ++ "\x7d"

/-- What `input()` yields in no-argument mode: a line, end of input
(`EOFError`), or a user interrupt (`KeyboardInterrupt`). -/
inductive StdinResult where
  | line (s : String)
  | eof
  | interrupt

/-- The environment `main` runs in: the contents of `config.toml` when the
file exists (`none` when opening raises `FileNotFoundError`), the positional
arguments `sys.argv[1:]`, and the standard-input outcome. -/
structure Env where
  configFile : Option String
  argv : List String
  stdin : StdinResult

/-- What a `main` run produces: the lines printed to standard output and the
process exit status. -/
structure MainResult where
  output : List String
  exitCode : Nat
  deriving DecidableEq

/-- The configuration-loading block of `main`: when `config.toml` exists the
file is opened but the body is `pass`, so nothing is parsed; when it is
missing the `FileNotFoundError` is caught.  Either way `config` remains the
empty dict it was bound to before the `try`. -/
def loadConfig : Option String → Config
  | some _ => []
  | none => []

/-- `main`: load (no) configuration, construct the agent, then dispatch on
argument presence.  With positional arguments, join them with single spaces
and print `process` of the joined string.  Otherwise read one line: end of
input or an interrupt is swallowed silently; a line that parses as JSON goes
through `handle_request` and is printed with `json.dumps`; a line that fails
to parse (`json.JSONDecodeError`) is treated as plain text through `process`. -/
def mainRun (env : Env) : MainResult :=
  let config := loadConfig env.configFile
  let agent := Agent.init config
  if env.argv.length > 0 then
    let input_data := String.intercalate " " env.argv
    { output := [agent.process input_data], exitCode := 0 }
  else
    match env.stdin with
    | .eof => { output := [], exitCode := 0 }
    | .interrupt => { output := [], exitCode := 0 }
    | .line l =>
      match loads l with
      | some request => { output := [dumpsEnvelope (agent.handle_request request)], exitCode := 0 }
      | none => { output := [agent.process l], exitCode := 0 }

/-- The outcome of launching the external CLI from the harness: either the
child ran (`subprocess.Popen` plus `communicate` succeeded, producing combined
output and an exit code) or launching raised an exception with message `msg`
(missing binary, permission error, ...). -/
inductive LaunchResult where
  | ran (output : String) (exitCode : Int)
  | failed (msg : String)

/-- One observable step of the harness, in order. -/
inductive HEvent where
  | writeFixture (path content : String)
  | printLine (s : String)
  | launchAttempt
  deriving DecidableEq

/-- A run of the harness: its ordered event trace and its exit status. -/
structure HarnessResult where
  events : List HEvent
  exitCode : Nat
  deriving DecidableEq

/-- The fixture path `scripts/test_upload_batch.py` writes. -/
def fixturePath : String := "/tmp/carp-test-upload/test-agent.md"

/-- The front-matter fixture content the harness writes. -/
def fixtureContent : String :=
  "---\nname: test-batch-upload\ndescription: Test agent for batch upload debugging\nversion: \x221.0.0\x22\ntags: [\x22test\x22, \x22debug\x22, \x22batch\x22]\n---\n\n# Test Batch Upload Agent\n\nThis is a test agent to debug the batch upload functionality."

/-- The fixed command line the harness runs, the space-joined `cmd` list. -/
def harnessCmdLine : String :=
  "/Users/andreasbigger/carp/cli/target/release/carp upload --directory /tmp/carp-test-upload --api-key carp_test_abcd_efgh_ijkl --verbose"

/-- A line of fifty equals signs, `"=" * 50`. -/
def eqBar : String := String.mk (List.replicate 50 '=')

/-- `test_upload`: write the fixture, print the progress lines, attempt the
launch inside a `try`; when the child runs, print its combined output and
exit code; when launching raises, print `Error running CLI: str(e)`.  The
function returns normally in both cases, so the script exits with status 0. -/
def test_upload (launch : LaunchResult) : HarnessResult :=
  let before : List HEvent :=
    [ .writeFixture fixturePath fixtureContent
    , .printLine "Created test agent file"
    , .printLine ("Running command: " ++ harnessCmdLine)
    , .printLine eqBar
    , .launchAttempt ]
  match launch with
  | .ran output code =>
    { events := before ++
        [ .printLine "CLI Output:"
        , .printLine output
        , .printLine eqBar
        , .printLine ("Exit code: " ++ toString code) ]
    , exitCode := 0 }
  | .failed msg =>
    { events := before ++ [ .printLine ("Error running CLI: " ++ msg) ]
    , exitCode := 0 }

/-- Claim C1: for every request, whether `handle_request` returns the Success
or the Failure variant, the `agent` field of the returned envelope equals the
identity fixed when the `Agent` was constructed; the embedding is pure, so no
operation mutates the identity after construction. -/
theorem handle_request_agent_identity (a : Agent) (request : JValue) :
    (a.handle_request request).agent = a.identity := by
  unfold Agent.handle_request
  cases getInput request <;> rfl

/-- Claim C2: for every request object with no `input` field,
`handle_request` behaves as if the input were the empty string and returns a
Success envelope whose result is `process ""`. -/
theorem handle_request_missing_input (a : Agent) (fields : List (String × JValue))
    (h : objGet fields "input" = none) :
    a.handle_request (.obj fields) = .Success (a.process "") a.identity ∧
    (a.handle_request (.obj fields)).isSuccess = true := by
  have hin : getInput (.obj fields) = .ok (.str "") := by
    show Except.ok ((objGet fields "input").getD (JValue.str "")) = _
    rw [h]
    rfl
  constructor
  · unfold Agent.handle_request
    rw [hin]
    simp [JValue.pyStr]
  · unfold Agent.handle_request
    rw [hin]
    rfl

/-- Witness for C2 at the empty request object and the default agent. -/
theorem handle_request_missing_input_witness :
    objGet [] "input" = none ∧
    ((Agent.init []).handle_request (.obj []) =
        .Success ((Agent.init []).process "") (Agent.init []).identity ∧
      ((Agent.init []).handle_request (.obj [])).isSuccess = true) :=
  ⟨rfl, handle_request_missing_input (Agent.init []) [] rfl⟩

/-- Claim C3: when the standard-input line fails to parse as JSON, `main`
falls back to treating the whole line as plain text through `process` and
prints the plain string — never a Failure envelope; in particular, the line
`not json` prints `Hello from Basic Agent! You said: not json`. -/
theorem main_plain_text_fallback :
    (∀ (cf : Option String) (l : String), loads l = none →
      mainRun ⟨cf, [], .line l⟩ = ⟨[(Agent.init (loadConfig cf)).process l], 0⟩) ∧
    mainRun ⟨none, [], .line "not json"⟩ =
      ⟨["Hello from Basic Agent! You said: not json"], 0⟩ := by
  constructor
  · intro cf l h
    unfold mainRun
    simp [h]
  · rfl

/-- Witness for C3: the line `not json` indeed fails to parse, and the
general fallback statement applies to it with a present configuration file. -/
theorem main_plain_text_fallback_witness :
    loads "not json" = none ∧
    mainRun ⟨some "key = value", [], .line "not json"⟩ =
      ⟨[(Agent.init (loadConfig (some "key = value"))).process "not json"], 0⟩ :=
  ⟨rfl, main_plain_text_fallback.1 (some "key = value") "not json" rfl⟩

/-- Claim C4: for every string `s`, the output of `process s` contains `s`
verbatim as a substring. -/
theorem process_contains_input (a : Agent) (s : String) :
    s.toList <:+: (a.process s).toList := by
  have h : (a.process s).toList =
      ("Hello from " ++ a.name ++ "! You said: ").toList ++ s.toList := by
    simp [Agent.process, String.toList, String.data_append, List.append_assoc]
  rw [h]
  exact (List.suffix_append _ _).isInfix

/-- Claim C5: the configuration loaded at startup is always effectively
empty — whether or not `config.toml` exists, no key is parsed — so the agent
identity constructed in `main` always defaults to `Basic Agent` / `0.1.0`. -/
theorem config_effectively_empty (cf : Option String) :
    loadConfig cf = [] ∧
    (Agent.init (loadConfig cf)).identity = ⟨"Basic Agent", "0.1.0"⟩ := by
  cases cf <;> exact ⟨rfl, rfl⟩

/-- Claim C6: with positional arguments, `main` joins them with single
spaces, passes the joined string to `process`, and prints the plain result;
for arguments `hello world` it prints exactly
`Hello from Basic Agent! You said: hello world`. -/
theorem main_argv_joined :
    (∀ (cf : Option String) (stdin : StdinResult) (args : List String),
      args ≠ [] →
      mainRun ⟨cf, args, stdin⟩ =
        ⟨[(Agent.init (loadConfig cf)).process (String.intercalate " " args)], 0⟩) ∧
    ∀ stdin : StdinResult, mainRun ⟨none, ["hello", "world"], stdin⟩ =
      ⟨["Hello from Basic Agent! You said: hello world"], 0⟩ := by
  constructor
  · intro cf stdin args h
    unfold mainRun
    cases args with
    | nil => exact absurd rfl h
    | cons a rest => simp
  · intro stdin
    rfl

/-- Witness for C6 at the two-argument invocation from the spec scenario. -/
theorem main_argv_joined_witness :
    (["hello", "world"] : List String) ≠ [] ∧
    mainRun ⟨none, ["hello", "world"], .eof⟩ =
      ⟨[(Agent.init (loadConfig none)).process
          (String.intercalate " " ["hello", "world"])], 0⟩ :=
  ⟨List.cons_ne_nil _ _,
    main_argv_joined.1 none .eof ["hello", "world"] (List.cons_ne_nil _ _)⟩

/-- Claim C7: in no-argument mode, immediate end of input or a user
interrupt makes `main` exit silently: nothing is printed and the process
terminates with a success status. -/
theorem main_silent_on_eof_or_interrupt (cf : Option String) :
    mainRun ⟨cf, [], .eof⟩ = ⟨[], 0⟩ ∧
    mainRun ⟨cf, [], .interrupt⟩ = ⟨[], 0⟩ :=
  ⟨rfl, rfl⟩

/-- Claim C8: two handlers constructed from the same configuration give
identical `process` output on the same input, and repeating the call changes
nothing; the result is a function of the construction-time configuration and
the input only. -/
theorem process_function_of_config_and_input (c1 c2 : Config) (s : String)
    (h : c1 = c2) :
    (Agent.init c1).process s = (Agent.init c2).process s ∧
    (Agent.init c1).process s = (Agent.init c1).process s := by
  subst h
  exact ⟨rfl, rfl⟩

/-- Witness for C8 at a concrete configuration and input. -/
theorem process_function_of_config_and_input_witness :
    ([("name", "N")] : Config) = [("name", "N")] ∧
    ((Agent.init [("name", "N")]).process "ping" =
        (Agent.init [("name", "N")]).process "ping" ∧
      (Agent.init [("name", "N")]).process "ping" =
        (Agent.init [("name", "N")]).process "ping") :=
  ⟨rfl, process_function_of_config_and_input [("name", "N")] [("name", "N")] "ping" rfl⟩

/-- Claim C9: whatever the launch outcome, the harness exits with status 0
and has already written the fixture (and printed its progress lines) before
the launch attempt; when launching fails it appends exactly the descriptive
`Error running CLI:` message and nothing else, asserting on no child output
or exit code. -/
theorem harness_launch_failure_semantics (launch : LaunchResult) :
    (test_upload launch).exitCode = 0 ∧
    (test_upload launch).events.take 5 =
      [ .writeFixture fixturePath fixtureContent
      , .printLine "Created test agent file"
      , .printLine ("Running command: " ++ harnessCmdLine)
      , .printLine eqBar
      , .launchAttempt ] ∧
    ∀ msg : String, launch = .failed msg →
      (test_upload launch).events =
        [ .writeFixture fixturePath fixtureContent
        , .printLine "Created test agent file"
        , .printLine ("Running command: " ++ harnessCmdLine)
        , .printLine eqBar
        , .launchAttempt
        , .printLine ("Error running CLI: " ++ msg) ] := by
  cases launch with
  | ran output code =>
    refine ⟨rfl, rfl, ?_⟩
    intro msg h
    exact LaunchResult.noConfusion h
  | failed m =>
    refine ⟨rfl, rfl, ?_⟩
    intro msg h
    injection h with hm
    subst hm
    rfl

/-- Witness for C9 at a missing-binary launch failure. -/
theorem harness_launch_failure_semantics_witness :
    (LaunchResult.failed "No such file or directory" =
      LaunchResult.failed "No such file or directory") ∧
    (test_upload (.failed "No such file or directory")).events =
      [ .writeFixture fixturePath fixtureContent
      , .printLine "Created test agent file"
      , .printLine ("Running command: " ++ harnessCmdLine)
      , .printLine eqBar
      , .launchAttempt
      , .printLine ("Error running CLI: " ++ "No such file or directory") ] :=
  ⟨rfl, (harness_launch_failure_semantics (.failed "No such file or directory")).2.2
    "No such file or directory" rfl⟩

/-- Claim C10: `handle_request` is total (a Lean function) and converts the
attribute error raised on a non-dict request into a Failure envelope carrying
the error text; a standard-input line that parses as JSON but is not an
object, such as `42` or a quoted string, is routed to `handle_request` and
printed as a JSON Failure envelope, not as a plain string. -/
theorem handle_request_nonobject_failure :
    (∀ (a : Agent) (v : JValue), v.isObj = false →
      a.handle_request v = .Failure (attrErrMsg v.pyTypeName) a.identity) ∧
    mainRun ⟨none, [], .line "42"⟩ =
      ⟨[dumpsEnvelope (.Failure (attrErrMsg "int") ⟨"Basic Agent", "0.1.0"⟩)], 0⟩ ∧
    mainRun ⟨none, [], .line "\x22hello\x22"⟩ =
      ⟨[dumpsEnvelope (.Failure (attrErrMsg "str") ⟨"Basic Agent", "0.1.0"⟩)], 0⟩ := by
  refine ⟨?_, rfl, rfl⟩
  intro a v h
  cases v with
  | null => rfl
  | bool b => rfl
  | int n => rfl
  | float raw => rfl
  | str s => rfl
  | arr items => rfl
  | obj fields => exact absurd h (by simp [JValue.isObj])

/-- Witness for C10 at the integer request `42`. -/
theorem handle_request_nonobject_failure_witness :
    (JValue.int 42).isObj = false ∧
    (Agent.init []).handle_request (.int 42) =
      .Failure (attrErrMsg (JValue.int 42).pyTypeName) (Agent.init []).identity :=
  ⟨rfl, handle_request_nonobject_failure.1 (Agent.init []) (.int 42) rfl⟩
